import Mathlib

/-!
Verification development for the FloatBot ingestion pipeline
(data_processor.py, floatbot_main.py, database.py).

The Python code is shallowly embedded: xarray datasets become finite
association lists of named fields; every raw cell is a `RawVal`;
exceptions raised inside a Python `try` block are modelled with
`Except PyErr`, and the enclosing `except Exception` handler is the
function that maps `.error` to the fallback value (usually `none`).
-/

namespace FloatBot

/-- A Python exception kind, as far as the embedded code distinguishes them. -/
inductive PyErr where
  | typeError
  | valueError
  | unicodeDecodeError
  deriving DecidableEq, Repr

/-- One raw cell of an xarray variable: a float (possibly NaN), a byte
string (possibly undecodable), a unicode string, or a datetime64 value
(abstracted to an integer instant token). -/
inductive RawVal where
  | num (q : ℚ)
  | nan
  | bytes (s : String)
  | corruptBytes
  | str (s : String)
  | dt (t : ℤ)
  deriving DecidableEq, Repr

/-- A decoded Python scalar as returned by the safe accessor:
number, trimmed string, or datetime. -/
inductive PyVal where
  | num (q : ℚ)
  | str (s : String)
  | dt (t : ℤ)
  deriving DecidableEq, Repr

/-- An xarray variable: scalar (0-d), one-dimensional, or
two-dimensional (N_PROF x N_LEVELS). -/
inductive XField where
  | scalar (v : RawVal)
  | oneD (vs : List RawVal)
  | twoD (rows : List (List RawVal))
  deriving DecidableEq, Repr

/-- An xarray dataset: named variables plus the sizes of the two
dimensions used by the profile extractor (N_PROF and N_LEVELS). -/
structure Dataset where
  vars : List (String × XField)
  nProf : Nat
  nLevels : Nat
  deriving DecidableEq, Repr

/-- The index argument of safe_get_value: a Python int or a Python tuple. -/
inductive PyIdx where
  | int (i : Nat)
  | tup (i j : Nat)
  deriving DecidableEq, Repr

/-- Number of dimensions of a variable (len(value.dims)). -/
def XField.ndims : XField → Nat
  | .scalar _ => 0
  | .oneD _ => 1
  | .twoD _ => 2

/-- All cells of a variable in row-major order; ndarray.item() succeeds
exactly when this list has one element. -/
def XField.flatten : XField → List RawVal
  | .scalar v => [v]
  | .oneD vs => vs
  | .twoD rows => rows.flatten

/-- The indexing step of safe_get_value:
if len(value.dims) > 0 and len(value) > index: value = value[index].
Comparing the int len(value) with a tuple index raises TypeError, which
is the behaviour of the source for every two-dimensional lookup. -/
def applyIndex (f : XField) (idx : PyIdx) : Except PyErr XField :=
  if f.ndims > 0 then
    match idx with
    | .tup _ _ => .error .typeError
    | .int i =>
      match f with
      | .scalar v => .ok (.scalar v)
      | .oneD vs => if vs.length > i then .ok (.scalar (vs.getD i .nan)) else .ok (.oneD vs)
      | .twoD rows => if rows.length > i then .ok (.oneD (rows.getD i [])) else .ok (.twoD rows)
  else .ok f

/-- ndarray.item(): the single element of a size-1 array, ValueError otherwise. -/
def itemOf (f : XField) : Except PyErr RawVal :=
  match f.flatten with
  | [v] => .ok v
  | _ => .error .valueError

/-- Empty strings map to null after trimming. -/
def strToVal (s : String) : Option PyVal :=
  if s = "" then none else some (.str s)

/-- The decode tail of safe_get_value: bytes are UTF-8-decoded and
trimmed (undecodable bytes raise UnicodeDecodeError), strings are
trimmed, NaN and empty strings map to null. -/
def decodeScalar : RawVal → Except PyErr (Option PyVal)
  | .num q => .ok (some (.num q))
  | .nan => .ok none
  | .bytes s => .ok (strToVal s.trim)
  | .corruptBytes => .error .unicodeDecodeError
  | .str s => .ok (strToVal s.trim)
  | .dt t => .ok (some (.dt t))

/-- The try-block body of safe_get_value. An absent variable returns
null without raising; the indexing, item() and decode steps may raise. -/
def getValueBody (ds : Dataset) (var_name : String) (index : Option PyIdx) :
    Except PyErr (Option PyVal) :=
  match ds.vars.lookup var_name with
  | none => .ok none
  | some f0 =>
    match (match index with
           | none => Except.ok f0
           | some idx => applyIndex f0 idx) with
    | .error e => .error e
    | .ok f =>
      match itemOf f with
      | .error e => .error e
      | .ok rv => decodeScalar rv

/-- FloatDataProcessor.safe_get_value: the try-block body with the
catch-all handler that converts any exception to null. -/
def safe_get_value (ds : Dataset) (var_name : String) (index : Option PyIdx) : Option PyVal :=
  match getValueBody ds var_name index with
  | .ok v => v
  | .error _ => none

/-- safe_get_value observed at the raises/returns boundary: a `.ok`
value is a normal return, `.error` would be a propagated exception. -/
def safe_get_value_exc (ds : Dataset) (var_name : String) (index : Option PyIdx) :
    Except PyErr (Option PyVal) :=
  match getValueBody ds var_name index with
  | .ok v => .ok v
  | .error _ => .ok none

/-- Abstraction of the external datetime-string parser (pd.to_datetime):
an ISO-like Y-M-D date yields an abstract instant token, anything else
is malformed and yields null (the source wraps the parse in its own
try/except returning None). -/
def pdToDatetimeOpt (s : String) : Option ℤ :=
  match s.splitOn "-" with
  | [y, m, d] =>
    match y.toNat?, m.toNat?, d.toNat? with
    | some yn, some mn, some dn =>
      if 1 ≤ mn ∧ mn ≤ 12 ∧ 1 ≤ dn ∧ dn ≤ 31 then some (yn * 10000 + mn * 100 + dn) else none
    | _, _, _ => none
  | _ => none

/-- The try-block body of safe_get_datetime: datetime values pass
through, strings are parsed (malformed gives null), numbers fall
through to null. -/
def getDatetimeBody (ds : Dataset) (var_name : String) (index : Option PyIdx) :
    Except PyErr (Option ℤ) :=
  match safe_get_value ds var_name index with
  | none => .ok none
  | some (.dt t) => .ok (some t)
  | some (.str s) => .ok (pdToDatetimeOpt s)
  | some (.num _) => .ok none

/-- FloatDataProcessor.safe_get_datetime with its catch-all handler. -/
def safe_get_datetime (ds : Dataset) (var_name : String) (index : Option PyIdx) : Option ℤ :=
  match getDatetimeBody ds var_name index with
  | .ok v => v
  | .error _ => none

/-- safe_get_datetime observed at the raises/returns boundary. -/
def safe_get_datetime_exc (ds : Dataset) (var_name : String) (index : Option PyIdx) :
    Except PyErr (Option ℤ) :=
  match getDatetimeBody ds var_name index with
  | .ok v => .ok v
  | .error _ => .ok none

/-! ## Python conversion helpers used by the extractors -/

/-- Python truthiness of a decoded scalar (0 and the empty string are falsy). -/
def pyFalsy : PyVal → Bool
  | .num q => q == 0
  | .str s => s == ""
  | .dt _ => false

/-- Python expression x or 0 applied to an optional scalar. -/
def pyOr0 : Option PyVal → PyVal
  | none => .num 0
  | some v => if pyFalsy v then .num 0 else v

/-- Python int() on a float truncates toward zero. -/
def ratTrunc (q : ℚ) : ℤ :=
  if q < 0 then -((-q).floor) else q.floor

/-- Python int() on a decoded scalar: floats truncate, integer-literal
strings parse (others raise ValueError), datetimes raise TypeError. -/
def pyInt : PyVal → Except PyErr ℤ
  | .num q => .ok (ratTrunc q)
  | .str s =>
    match s.toInt? with
    | some n => .ok n
    | none => .error .valueError
  | .dt _ => .error .typeError

/-- Abstraction of Python float() on a string: integer-literal strings
parse, anything else is treated as malformed. -/
def strToRat? (s : String) : Option ℚ :=
  (s.toInt?).map (fun n => (n : ℚ))

/-- Python float() on a decoded scalar. -/
def pyFloat : PyVal → Except PyErr ℚ
  | .num q => .ok q
  | .str s =>
    match strToRat? s with
    | some q => .ok q
    | none => .error .valueError
  | .dt _ => .error .typeError

/-! ## Remote-source model and the fallback resolver -/

/-- The two datasets a GDAC mirror serves for one platform, plus the
attributes read off the ArgoFloat handle. -/
structure ArgoSource where
  meta : Dataset
  prof : Dataset
  dac : Option String
  networks : Option String
  deriving Repr

/-- Reachability state of one GDAC host for the platform under
processing: whether the connection attempt (including int(wmo_id) and
ls_dataset) raises, the catalogue listing it returns, and the data it
serves when connected. -/
structure HostState where
  raises : Bool
  datasets : List String
  source : ArgoSource
  deriving Repr

/-- The configuration of FloatDataProcessor: the constructor-supplied
host followed by the fixed fallback list. -/
structure Processor where
  gdac_host : String
  fallback_hosts : List String
  deriving Repr

/-- The loop of get_argo_float_with_fallback: a raising attempt is
logged (warning) and skipped; an empty catalogue listing is skipped
without a log entry; the first non-empty listing wins.  Returns the
connected host (None when every attempt failed) and the list of hosts
for which a failure warning was logged. -/
def fallbackGo (world : String → HostState) : List String → List String →
    Option String × List String
  | [], log => (none, log)
  | h :: rest, log =>
    let st := world h
    if st.raises then fallbackGo world rest (log ++ [h])
    else if st.datasets.isEmpty then fallbackGo world rest log
    else (some h, log)

/-- FloatDataProcessor.get_argo_float_with_fallback: tries
[self.gdac_host] + self.fallback_hosts truncated to max_retries + 1
entries, in order. -/
def get_argo_float_with_fallback (p : Processor) (world : String → HostState)
    (max_retries : Nat) : Option String × List String :=
  fallbackGo world ((p.gdac_host :: p.fallback_hosts).take (max_retries + 1)) []

/-! ## Metadata extraction -/

/-- The metadata record built by extract_float_metadata (one key per
entry of the Python dict; instants are abstract integer tokens). -/
structure FloatMetadata where
  wmo_id : String
  platform_type : Option PyVal
  platform_maker : Option PyVal
  float_serial_no : Option PyVal
  project_name : Option PyVal
  pi_name : Option PyVal
  launch_date : Option ℤ
  launch_latitude : Option ℚ
  launch_longitude : Option ℚ
  deployment_platform : Option PyVal
  deployment_cruise_id : Option PyVal
  start_date : Option ℤ
  end_mission_date : Option ℤ
  battery_type : Option PyVal
  firmware_version : Option PyVal
  dac_name : Option String
  network_type : Option String
  float_owner : Option PyVal
  operating_institution : Option PyVal
  deriving DecidableEq, Repr, Inhabited

/-- The f-string format spec .2f accepts numbers and raises for any
other operand (the success-log line formats the raw launch position). -/
def formatF2 : PyVal → Except PyErr Unit
  | .num _ => .ok ()
  | .str _ => .error .valueError
  | .dt _ => .error .typeError

/-- The comparison chain of is_indian_ocean_float applied to the raw
decoded launch position: comparing a non-number with an int raises
TypeError. -/
def indianCheckRaw : PyVal → PyVal → Except PyErr Bool
  | .num la, .num lo => .ok (decide ((20 ≤ lo ∧ lo ≤ 120) ∧ (-60 ≤ la ∧ la ≤ 30)))
  | _, _ => .error .typeError

/-- FloatDataProcessor.is_indian_ocean_float on numeric coordinates. -/
def is_indian_ocean_float (launch_lat launch_lon : ℚ) : Bool :=
  decide ((20 ≤ launch_lon ∧ launch_lon ≤ 120) ∧ (-60 ≤ launch_lat ∧ launch_lat ≤ 30))

/-- The try-block body of extract_float_metadata after the source is
resolved: missing launch coordinates return null; building the record
applies float() to the raw coordinates, and the success-log line
re-uses the raw values in is_indian_ocean_float and a .2f format, so
non-numeric raw coordinates raise before the record is returned. -/
def metadataBody (src : ArgoSource) (wmo_id : String) : Except PyErr (Option FloatMetadata) :=
  let meta_ds := src.meta
  let launch_lat := safe_get_value meta_ds "LAUNCH_LATITUDE" none
  let launch_lon := safe_get_value meta_ds "LAUNCH_LONGITUDE" none
  match launch_lat, launch_lon with
  | none, _ => .ok none
  | some _, none => .ok none
  | some la, some lo =>
    match pyFloat la, pyFloat lo with
    | .error e, _ => .error e
    | .ok _, .error e => .error e
    | .ok laq, .ok loq =>
      let md : FloatMetadata :=
        { wmo_id := wmo_id
          platform_type := safe_get_value meta_ds "PLATFORM_TYPE" none
          platform_maker := safe_get_value meta_ds "PLATFORM_MAKER" none
          float_serial_no := safe_get_value meta_ds "FLOAT_SERIAL_NO" none
          project_name := safe_get_value meta_ds "PROJECT_NAME" none
          pi_name := safe_get_value meta_ds "PI_NAME" none
          launch_date := safe_get_datetime meta_ds "LAUNCH_DATE" none
          launch_latitude := some laq
          launch_longitude := some loq
          deployment_platform := safe_get_value meta_ds "DEPLOYMENT_PLATFORM" none
          deployment_cruise_id := safe_get_value meta_ds "DEPLOYMENT_CRUISE_ID" none
          start_date := safe_get_datetime meta_ds "START_DATE" none
          end_mission_date := safe_get_datetime meta_ds "END_MISSION_DATE" none
          battery_type := safe_get_value meta_ds "BATTERY_TYPE" none
          firmware_version := safe_get_value meta_ds "FIRMWARE_VERSION" none
          dac_name := src.dac
          network_type := src.networks
          float_owner := safe_get_value meta_ds "FLOAT_OWNER" none
          operating_institution := safe_get_value meta_ds "OPERATING_INSTITUTION" none }
      match indianCheckRaw la lo with
      | .error e => .error e
      | .ok _ =>
        match formatF2 la, formatF2 lo with
        | .error e, _ => .error e
        | .ok _, .error e => .error e
        | .ok _, .ok _ => .ok (some md)

/-- extract_float_metadata after source resolution, with its catch-all
handler (any exception in the body yields null). -/
def extract_float_metadata_core (src : ArgoSource) (wmo_id : String) : Option FloatMetadata :=
  match metadataBody src wmo_id with
  | .ok v => v
  | .error _ => none

/-- FloatDataProcessor.extract_float_metadata: resolve a host with the
default retry budget (3), then read the meta dataset; no connection
means null. -/
def extract_float_metadata (p : Processor) (world : String → HostState)
    (wmo_id : String) : Option FloatMetadata :=
  match (get_argo_float_with_fallback p world 3).1 with
  | none => none
  | some h => extract_float_metadata_core (world h).source wmo_id

/-! ## Cycle and measurement extraction -/

/-- The per-cycle record built inside extract_cycle_data. -/
structure Cycle where
  wmo_id : String
  cycle_number : ℤ
  profile_date : Option ℤ
  profile_latitude : Option PyVal
  profile_longitude : Option PyVal
  ocean_area : String
  positioning_system : Option PyVal
  profile_pres_qc : Option PyVal
  profile_temp_qc : Option PyVal
  profile_psal_qc : Option PyVal
  vertical_sampling_scheme : Option PyVal
  config_mission_number : Option PyVal
  data_mode : Option PyVal
  direction : Option PyVal
  data_centre : Option PyVal
  dc_reference : Option PyVal
  data_state_indicator : Option PyVal
  deriving DecidableEq, Repr, Inhabited

/-- The per-level record built inside extract_measurements_for_profile. -/
structure Measurement where
  wmo_id : String
  cycle_number : ℤ
  measurement_level : Nat
  pressure : Option PyVal
  pressure_qc : Option PyVal
  pressure_adjusted : Option PyVal
  pressure_adjusted_qc : Option PyVal
  pressure_adjusted_error : Option PyVal
  temperature : Option PyVal
  temperature_qc : Option PyVal
  temperature_adjusted : Option PyVal
  temperature_adjusted_qc : Option PyVal
  temperature_adjusted_error : Option PyVal
  salinity : Option PyVal
  salinity_qc : Option PyVal
  salinity_adjusted : Option PyVal
  salinity_adjusted_qc : Option PyVal
  salinity_adjusted_error : Option PyVal
  doxy : Option PyVal
  doxy_qc : Option PyVal
  doxy_adjusted : Option PyVal
  doxy_adjusted_qc : Option PyVal
  chla : Option PyVal
  chla_qc : Option PyVal
  chla_adjusted : Option PyVal
  chla_adjusted_qc : Option PyVal
  bbp700 : Option PyVal
  bbp700_qc : Option PyVal
  bbp700_adjusted : Option PyVal
  bbp700_adjusted_qc : Option PyVal
  nitrate : Option PyVal
  nitrate_qc : Option PyVal
  nitrate_adjusted : Option PyVal
  nitrate_adjusted_qc : Option PyVal
  ph_in_situ_total : Option PyVal
  ph_in_situ_total_qc : Option PyVal
  ph_in_situ_total_adjusted : Option PyVal
  ph_in_situ_total_adjusted_qc : Option PyVal
  deriving DecidableEq, Repr, Inhabited

/-- The measurement dict literal of extract_measurements_for_profile:
every per-level field is read with a (profile_index, level) tuple index. -/
def mkMeasurement (ds : Dataset) (wmo_id : String) (cycle_number : ℤ)
    (profile_index level : Nat) : Measurement :=
  let at2 := fun v => safe_get_value ds v (some (.tup profile_index level))
  { wmo_id := wmo_id
    cycle_number := cycle_number
    measurement_level := level
    pressure := at2 "PRES"
    pressure_qc := at2 "PRES_QC"
    pressure_adjusted := at2 "PRES_ADJUSTED"
    pressure_adjusted_qc := at2 "PRES_ADJUSTED_QC"
    pressure_adjusted_error := at2 "PRES_ADJUSTED_ERROR"
    temperature := at2 "TEMP"
    temperature_qc := at2 "TEMP_QC"
    temperature_adjusted := at2 "TEMP_ADJUSTED"
    temperature_adjusted_qc := at2 "TEMP_ADJUSTED_QC"
    temperature_adjusted_error := at2 "TEMP_ADJUSTED_ERROR"
    salinity := at2 "PSAL"
    salinity_qc := at2 "PSAL_QC"
    salinity_adjusted := at2 "PSAL_ADJUSTED"
    salinity_adjusted_qc := at2 "PSAL_ADJUSTED_QC"
    salinity_adjusted_error := at2 "PSAL_ADJUSTED_ERROR"
    doxy := at2 "DOXY"
    doxy_qc := at2 "DOXY_QC"
    doxy_adjusted := at2 "DOXY_ADJUSTED"
    doxy_adjusted_qc := at2 "DOXY_ADJUSTED_QC"
    chla := at2 "CHLA"
    chla_qc := at2 "CHLA_QC"
    chla_adjusted := at2 "CHLA_ADJUSTED"
    chla_adjusted_qc := at2 "CHLA_ADJUSTED_QC"
    bbp700 := at2 "BBP700"
    bbp700_qc := at2 "BBP700_QC"
    bbp700_adjusted := at2 "BBP700_ADJUSTED"
    bbp700_adjusted_qc := at2 "BBP700_ADJUSTED_QC"
    nitrate := at2 "NITRATE"
    nitrate_qc := at2 "NITRATE_QC"
    nitrate_adjusted := at2 "NITRATE_ADJUSTED"
    nitrate_adjusted_qc := at2 "NITRATE_ADJUSTED_QC"
    ph_in_situ_total := at2 "PH_IN_SITU_TOTAL"
    ph_in_situ_total_qc := at2 "PH_IN_SITU_TOTAL_QC"
    ph_in_situ_total_adjusted := at2 "PH_IN_SITU_TOTAL_ADJUSTED"
    ph_in_situ_total_adjusted_qc := at2 "PH_IN_SITU_TOTAL_ADJUSTED_QC" }

/-- pd.isna applied to a scalar already decoded by safe_get_value:
NaN was mapped to null there, so no remaining scalar is missing. -/
def pdIsna : PyVal → Bool
  | .num _ => false
  | .str _ => false
  | .dt _ => false

/-- One iteration of the level loop of extract_measurements_for_profile:
a level whose decoded PRES is null (or missing) is skipped, otherwise
the measurement dict is appended. -/
def empStep (ds : Dataset) (wmo_id : String) (cycle_number : ℤ) (profile_index : Nat)
    (acc : List Measurement) (level : Nat) : List Measurement :=
  match safe_get_value ds "PRES" (some (.tup profile_index level)) with
  | none => acc
  | some p => if pdIsna p then acc else acc ++ [mkMeasurement ds wmo_id cycle_number profile_index level]

/-- FloatDataProcessor.extract_measurements_for_profile: iterate every
level of the N_LEVELS dimension (the body of the loop is total, so its
enclosing try/except never fires). -/
def extract_measurements_for_profile (ds : Dataset) (wmo_id : String)
    (cycle_number : ℤ) (profile_index : Nat) : List Measurement :=
  (List.range ds.nLevels).foldl (empStep ds wmo_id cycle_number profile_index) []

/-- The cycle dict literal of extract_cycle_data: per-cycle fields are
read with the integer profile index; ocean_area is the constant string. -/
def mkCycle (ds : Dataset) (wmo_id : String) (cn : ℤ) (i : Nat) : Cycle :=
  let at1 := fun v => safe_get_value ds v (some (.int i))
  { wmo_id := wmo_id
    cycle_number := cn
    profile_date := safe_get_datetime ds "JULD" (some (.int i))
    profile_latitude := at1 "LATITUDE"
    profile_longitude := at1 "LONGITUDE"
    ocean_area := "Indian Ocean"
    positioning_system := at1 "POSITIONING_SYSTEM"
    profile_pres_qc := at1 "PROFILE_PRES_QC"
    profile_temp_qc := at1 "PROFILE_TEMP_QC"
    profile_psal_qc := at1 "PROFILE_PSAL_QC"
    vertical_sampling_scheme := at1 "VERTICAL_SAMPLING_SCHEME"
    config_mission_number := at1 "CONFIG_MISSION_NUMBER"
    data_mode := at1 "DATA_MODE"
    direction := at1 "DIRECTION"
    data_centre := at1 "DATA_CENTRE"
    dc_reference := at1 "DC_REFERENCE"
    data_state_indicator := at1 "DATA_STATE_INDICATOR" }

/-- The per-profile try block of extract_cycle_data: the only raising
operation is int(safe_get_value(CYCLE_NUMBER, i) or 0); on success it
yields the cycle record and the measurements of that profile. -/
def processProfile (ds : Dataset) (wmo_id : String) (i : Nat) :
    Except PyErr (Cycle × List Measurement) :=
  match pyInt (pyOr0 (safe_get_value ds "CYCLE_NUMBER" (some (.int i)))) with
  | .error e => .error e
  | .ok cn => .ok (mkCycle ds wmo_id cn i, extract_measurements_for_profile ds wmo_id cn i)

/-- One iteration of the profile loop of extract_cycle_data: a raising
profile is logged and skipped, otherwise the cycle is appended and its
measurements are extended onto the output. -/
def ecdStep (ds : Dataset) (wmo_id : String) (acc : List Cycle × List Measurement)
    (i : Nat) : List Cycle × List Measurement :=
  match processProfile ds wmo_id i with
  | .ok cm => (acc.1 ++ [cm.1], acc.2 ++ cm.2)
  | .error _ => acc

/-- extract_cycle_data after source resolution: iterate the N_PROF
dimension of the prof dataset. -/
def extract_cycle_data_core (ds : Dataset) (wmo_id : String) :
    List Cycle × List Measurement :=
  (List.range ds.nProf).foldl (ecdStep ds wmo_id) ([], [])

/-- FloatDataProcessor.extract_cycle_data: resolve a host with the
default retry budget (3), then process the prof dataset; no connection
means two empty lists. -/
def extract_cycle_data (p : Processor) (world : String → HostState)
    (wmo_id : String) : List Cycle × List Measurement :=
  match (get_argo_float_with_fallback p world 3).1 with
  | none => ([], [])
  | some h => extract_cycle_data_core (world h).source.prof wmo_id

/-! ## Validation -/

/-- The stats sub-dict of the validation report; the per-variable counts
are only inserted when the measurement list is non-empty. -/
structure ValidationStats where
  cycles_count : Nat
  measurements_count : Nat
  avg_measurements_per_cycle : ℚ
  temperature_measurements : Option Nat
  salinity_measurements : Option Nat
  pressure_measurements : Option Nat
  deriving DecidableEq, Repr

/-- The validation report of validate_float_data. -/
structure ValidationReport where
  valid : Bool
  warnings : List String
  errors : List String
  stats : ValidationStats
  deriving DecidableEq, Repr

/-- Source block: if not metadata.get(wmo_id) (the empty string is the
only falsy string) append an error and clear valid. -/
def vstepWmo (metadata : FloatMetadata) (r : ValidationReport) : ValidationReport :=
  if metadata.wmo_id = "" then
    { r with errors := r.errors ++ ["Missing WMO ID"], valid := false }
  else r

/-- Source block: a missing launch date is only a warning. -/
def vstepLaunchDate (metadata : FloatMetadata) (r : ValidationReport) : ValidationReport :=
  if metadata.launch_date = none then
    { r with warnings := r.warnings ++ ["Missing launch date"] }
  else r

/-- Source block: missing launch coordinates append an error and clear valid. -/
def vstepCoords (metadata : FloatMetadata) (r : ValidationReport) : ValidationReport :=
  if metadata.launch_latitude = none ∨ metadata.launch_longitude = none then
    { r with errors := r.errors ++ ["Missing launch coordinates"], valid := false }
  else r

/-- Source block: zero cycles is an error; otherwise duplicate cycle
numbers are a warning. -/
def vstepCycles (cycles : List Cycle) (r : ValidationReport) : ValidationReport :=
  if cycles.isEmpty then
    { r with errors := r.errors ++ ["No cycles found"], valid := false }
  else
    let cycle_numbers := cycles.map (fun c => c.cycle_number)
    if cycle_numbers.dedup.length ≠ cycle_numbers.length then
      { r with warnings := r.warnings ++ ["Duplicate cycle numbers found"] }
    else r

/-- Source block: an empty measurement list is only a warning; otherwise
the per-variable counts are recorded, zero temperature/salinity counts
warn, and a zero pressure count is an error. -/
def vstepMeasurements (measurements : List Measurement) (r : ValidationReport) : ValidationReport :=
  if measurements.isEmpty then
    { r with warnings := r.warnings ++ ["No measurements found"] }
  else
    let temp_count := measurements.countP (fun m => m.temperature.isSome)
    let sal_count := measurements.countP (fun m => m.salinity.isSome)
    let pres_count := measurements.countP (fun m => m.pressure.isSome)
    let r := { r with stats := { r.stats with
                 temperature_measurements := some temp_count
                 salinity_measurements := some sal_count
                 pressure_measurements := some pres_count } }
    let r := if temp_count = 0 then
               { r with warnings := r.warnings ++ ["No temperature measurements found"] }
             else r
    let r := if sal_count = 0 then
               { r with warnings := r.warnings ++ ["No salinity measurements found"] }
             else r
    if pres_count = 0 then
      { r with errors := r.errors ++ ["No pressure measurements found"], valid := false }
    else r

/-- FloatDataProcessor.validate_float_data: the initial report followed
by the five check blocks of the source, in order. -/
def validate_float_data (metadata : FloatMetadata) (cycles : List Cycle)
    (measurements : List Measurement) : ValidationReport :=
  let r0 : ValidationReport :=
    { valid := true
      warnings := []
      errors := []
      stats :=
        { cycles_count := cycles.length
          measurements_count := measurements.length
          avg_measurements_per_cycle :=
            if cycles.isEmpty then 0 else (measurements.length : ℚ) / (cycles.length : ℚ)
          temperature_measurements := none
          salinity_measurements := none
          pressure_measurements := none } }
  vstepMeasurements measurements
    (vstepCycles cycles
      (vstepCoords metadata
        (vstepLaunchDate metadata
          (vstepWmo metadata r0))))

/-! ## Persistence writer (database.py) -/

/-- The relational store: the floats, cycles and measurements tables.
Timestamp columns (created_at/updated_at) are outside the model. -/
structure Store where
  floats : List FloatMetadata
  cycles : List Cycle
  measurements : List Measurement
  deriving DecidableEq, Repr

/-- FloatDatabase.get_float_metadata: SELECT by wmo_id, first row or null. -/
def get_float_metadata (st : Store) (wmo_id : String) : Option FloatMetadata :=
  st.floats.find? (fun r => r.wmo_id == wmo_id)

/-- FloatDatabase.insert_float_metadata: INSERT with ON CONFLICT
 (wmo_id) DO UPDATE SET platform_type, platform_maker,
end_mission_date (and updated_at, outside the model); every other
column of a conflicting row is left unchanged. -/
def insert_float_metadata (st : Store) (md : FloatMetadata) : Store :=
  if st.floats.any (fun r => r.wmo_id == md.wmo_id) then
    { st with floats := st.floats.map (fun r =>
        if r.wmo_id == md.wmo_id then
          { r with platform_type := md.platform_type
                   platform_maker := md.platform_maker
                   end_mission_date := md.end_mission_date }
        else r) }
  else { st with floats := st.floats ++ [md] }

/-- FloatDatabase.insert_cycle_data: INSERT with ON CONFLICT
 (wmo_id, cycle_number) DO UPDATE SET profile_date, profile_latitude,
profile_longitude, data_mode (and updated_at, outside the model). -/
def insert_cycle_data (st : Store) (c : Cycle) : Store :=
  if st.cycles.any (fun r => r.wmo_id == c.wmo_id && r.cycle_number == c.cycle_number) then
    { st with cycles := st.cycles.map (fun r =>
        if r.wmo_id == c.wmo_id && r.cycle_number == c.cycle_number then
          { r with profile_date := c.profile_date
                   profile_latitude := c.profile_latitude
                   profile_longitude := c.profile_longitude
                   data_mode := c.data_mode }
        else r) }
  else { st with cycles := st.cycles ++ [c] }

/-- One row of the executemany of insert_measurements_batch: INSERT
with ON CONFLICT (wmo_id, cycle_number, measurement_level) DO UPDATE
SET the eight measured-value columns. -/
def upsertMeasurement (st : Store) (m : Measurement) : Store :=
  let key := fun (r : Measurement) =>
    r.wmo_id == m.wmo_id && r.cycle_number == m.cycle_number &&
      r.measurement_level == m.measurement_level
  if st.measurements.any key then
    { st with measurements := st.measurements.map (fun r =>
        if key r then
          { r with pressure := m.pressure
                   temperature := m.temperature
                   salinity := m.salinity
                   doxy := m.doxy
                   chla := m.chla
                   bbp700 := m.bbp700
                   nitrate := m.nitrate
                   ph_in_situ_total := m.ph_in_situ_total }
        else r) }
  else { st with measurements := st.measurements ++ [m] }

/-- FloatDatabase.insert_measurements_batch: upsert every row of the batch. -/
def insert_measurements_batch (st : Store) (ms : List Measurement) : Store :=
  ms.foldl upsertMeasurement st

/-- Fuel-indexed chunking used to express the batch loop
for i in range(0, len(ms), batch_size). -/
def chunksAux (n : Nat) : Nat → List Measurement → List (List Measurement)
  | 0, _ => []
  | _, [] => []
  | fuel + 1, xs => xs.take n :: chunksAux n fuel (xs.drop n)

/-- The batches of size n a list is written in (the last one may be short). -/
def batchesOf (n : Nat) (xs : List Measurement) : List (List Measurement) :=
  chunksAux n xs.length xs

/-! ## Pipeline orchestrator (floatbot_main.py) -/

/-- The observable outcome of FloatBot.process_single_float: the store
afterwards, the returned success flag, and counters instrumenting how
many extractor calls and writer calls were made. -/
structure PipelineResult where
  store : Store
  success : Bool
  extractionCalls : Nat
  writerCalls : Nat
  deriving DecidableEq, Repr

/-- FloatBot.process_single_float: short-circuit when the platform is
already stored and force_update is false; otherwise extract metadata
(process_float_complete stops there when it is null), extract cycles
and measurements, validate (an invalid report blocks persistence), and
finally upsert the metadata, each cycle, and the measurements in
batches of 1000.  The modelled writer never fails, so the success flag
is true whenever persistence is reached. -/
def process_single_float (p : Processor) (world : String → HostState)
    (st : Store) (wmo_id : String) (force_update : Bool) : PipelineResult :=
  if force_update = false ∧ (get_float_metadata st wmo_id).isSome then
    { store := st, success := true, extractionCalls := 0, writerCalls := 0 }
  else
    match extract_float_metadata p world wmo_id with
    | none => { store := st, success := false, extractionCalls := 1, writerCalls := 0 }
    | some metadata =>
      let cm := extract_cycle_data p world wmo_id
      let report := validate_float_data metadata cm.1 cm.2
      if report.valid = false then
        { store := st, success := false, extractionCalls := 2, writerCalls := 0 }
      else
        let st1 := insert_float_metadata st metadata
        let st2 := cm.1.foldl insert_cycle_data st1
        let batches := batchesOf 1000 cm.2
        let st3 := batches.foldl insert_measurements_batch st2
        { store := st3
          success := true
          extractionCalls := 2
          writerCalls := 1 + cm.1.length + batches.length }

/-! ## Helper lemmas about the extraction loops -/

theorem pdIsna_false (v : PyVal) : pdIsna v = false := by
  cases v <;> rfl

theorem mkMeasurement_pressure (ds : Dataset) (wmo : String) (cn : ℤ) (profile_index lvl : Nat) :
    (mkMeasurement ds wmo cn profile_index lvl).pressure =
      safe_get_value ds "PRES" (some (.tup profile_index lvl)) := rfl

theorem mkCycle_ocean_area (ds : Dataset) (wmo : String) (cn : ℤ) (i : Nat) :
    (mkCycle ds wmo cn i).ocean_area = "Indian Ocean" := rfl

theorem emp_foldl_pressure (ds : Dataset) (wmo : String) (cn : ℤ) (pidx : Nat) :
    ∀ (l : List Nat) (acc : List Measurement),
      (∀ m ∈ acc, m.pressure ≠ none) →
      ∀ m ∈ l.foldl (empStep ds wmo cn pidx) acc, m.pressure ≠ none := by
  intro l
  induction l with
  | nil =>
    intro acc h m hm
    exact h m (by simpa using hm)
  | cons a t ih =>
    intro acc h m hm
    rw [List.foldl_cons] at hm
    refine ih _ ?_ m hm
    intro m' hm'
    unfold empStep at hm'
    split at hm'
    · exact h m' hm'
    next p heq =>
      rw [pdIsna_false] at hm'
      simp only [Bool.false_eq_true, if_false, List.mem_append, List.mem_singleton] at hm'
      rcases hm' with h1 | h2
      · exact h m' h1
      · rw [h2, mkMeasurement_pressure, heq]
        simp

theorem processProfile_ok_inv (ds : Dataset) (wmo : String) (i : Nat)
    (cm : Cycle × List Measurement) (h : processProfile ds wmo i = .ok cm) :
    ∃ cn, cm = (mkCycle ds wmo cn i, extract_measurements_for_profile ds wmo cn i) := by
  unfold processProfile at h
  split at h
  · exact absurd h (by simp)
  next cn heq =>
    exact ⟨cn, by injection h with h'; exact h'.symm⟩

theorem ecd_foldl_invariant (ds : Dataset) (wmo : String)
    (P : Cycle → Prop) (Q : Measurement → Prop)
    (hC : ∀ (cn : ℤ) (i : Nat), P (mkCycle ds wmo cn i))
    (hM : ∀ (cn : ℤ) (i : Nat), ∀ m ∈ extract_measurements_for_profile ds wmo cn i, Q m) :
    ∀ (l : List Nat) (acc : List Cycle × List Measurement),
      (∀ c ∈ acc.1, P c) → (∀ m ∈ acc.2, Q m) →
      (∀ c ∈ (l.foldl (ecdStep ds wmo) acc).1, P c) ∧
      (∀ m ∈ (l.foldl (ecdStep ds wmo) acc).2, Q m) := by
  intro l
  induction l with
  | nil =>
    intro acc h1 h2
    constructor
    · intro c hc; exact h1 c (by simpa using hc)
    · intro m hm; exact h2 m (by simpa using hm)
  | cons a t ih =>
    intro acc h1 h2
    rw [List.foldl_cons]
    apply ih
    · intro c hc
      unfold ecdStep at hc
      split at hc
      next cm heq =>
        rcases List.mem_append.1 hc with hmem | hmem
        · exact h1 c hmem
        · obtain ⟨cn, hcn⟩ := processProfile_ok_inv ds wmo a cm heq
          have : c = mkCycle ds wmo cn a := by
            have hfst := congrArg Prod.fst hcn
            simp only at hfst
            rw [← hfst]
            simpa using hmem
          rw [this]; exact hC cn a
      next => exact h1 c hc
    · intro m hm
      unfold ecdStep at hm
      split at hm
      next cm heq =>
        rcases List.mem_append.1 hm with hmem | hmem
        · exact h2 m hmem
        · obtain ⟨cn, hcn⟩ := processProfile_ok_inv ds wmo a cm heq
          have hsnd := congrArg Prod.snd hcn
          simp only at hsnd
          rw [hsnd] at hmem
          exact hM cn a m hmem
      next => exact h2 m hm

theorem emp_pressure (ds : Dataset) (wmo : String) (cn : ℤ) (pidx : Nat) :
    ∀ m ∈ extract_measurements_for_profile ds wmo cn pidx, m.pressure ≠ none := by
  intro m hm
  unfold extract_measurements_for_profile at hm
  exact emp_foldl_pressure ds wmo cn pidx _ [] (by simp) m hm

/-! ## Concrete fixtures used by witnesses -/

/-- A prof dataset whose PRES variable is zero-dimensional: the only
shape for which the tuple-indexed accessor can return a value. -/
def dsProfScalarPres : Dataset := ⟨[("PRES", .scalar (.num 7))], 1, 1⟩

def srcScalarPres : ArgoSource := ⟨⟨[], 0, 0⟩, dsProfScalarPres, none, none⟩

def worldScalarPres : String → HostState := fun _ => ⟨false, ["prof"], srcScalarPres⟩

def procOne : Processor := ⟨"h", []⟩

/-! ## Claim C1 -/

/-- Claim C1: for every platform and every profile,
extract_measurements_for_profile excludes any level whose decoded
pressure is null, so every measurement record returned by cycle
extraction (hence every measurement handed to the persistence writer)
has non-null pressure. -/
theorem extract_measurements_pressure_nonnull (p : Processor)
    (world : String → HostState) (wmo_id : String) :
    (∀ (ds : Dataset) (cn : ℤ) (profile_index : Nat),
        ∀ m ∈ extract_measurements_for_profile ds wmo_id cn profile_index, m.pressure ≠ none) ∧
    (∀ m ∈ (extract_cycle_data p world wmo_id).2, m.pressure ≠ none) := by
  constructor
  · intro ds cn pidx
    exact emp_pressure ds wmo_id cn pidx
  · intro m hm
    unfold extract_cycle_data at hm
    split at hm
    · simp at hm
    · unfold extract_cycle_data_core at hm
      exact (ecd_foldl_invariant _ _ (fun _ => True) (fun m => m.pressure ≠ none)
        (fun _ _ => trivial) (fun cn i => emp_pressure _ _ cn i)
        _ ([], []) (by simp) (by simp)).2 m hm

/-- Witness for C1 at a concrete dataset that does produce a measurement. -/
theorem extract_measurements_pressure_nonnull_witness :
    mkMeasurement dsProfScalarPres "W" 0 0 0 ∈ (extract_cycle_data procOne worldScalarPres "W").2 ∧
    (mkMeasurement dsProfScalarPres "W" 0 0 0).pressure ≠ none :=
  ⟨by decide,
   (extract_measurements_pressure_nonnull procOne worldScalarPres "W").2 _ (by decide)⟩

/-! ## Claim C9 -/

/-- Claim C9: every cycle record produced by cycle extraction has
ocean_area equal to the constant string Indian Ocean, regardless of the
cycle position or the launch position (the regional filter is disabled). -/
theorem cycle_ocean_area_constant (p : Processor) (world : String → HostState)
    (wmo_id : String) :
    ∀ c ∈ (extract_cycle_data p world wmo_id).1, c.ocean_area = "Indian Ocean" := by
  intro c hc
  unfold extract_cycle_data at hc
  split at hc
  · simp at hc
  · unfold extract_cycle_data_core at hc
    exact (ecd_foldl_invariant _ _ (fun c => c.ocean_area = "Indian Ocean") (fun _ => True)
      (fun cn i => mkCycle_ocean_area _ _ cn i) (fun _ _ _ _ => trivial)
      _ ([], []) (by simp) (by simp)).1 c hc

/-- Witness for C9 at a concrete dataset that does produce a cycle. -/
theorem cycle_ocean_area_constant_witness :
    mkCycle dsProfScalarPres "W" 0 0 ∈ (extract_cycle_data procOne worldScalarPres "W").1 ∧
    (mkCycle dsProfScalarPres "W" 0 0).ocean_area = "Indian Ocean" :=
  ⟨by decide, cycle_ocean_area_constant procOne worldScalarPres "W" _ (by decide)⟩

/-! ## Claim C2 -/

/-- A one-dimensional PRES variable: the wrong shape for a tuple index. -/
def dsOneDPres : Dataset := ⟨[("PRES", .oneD [.num 1, .num 2])], 1, 2⟩

/-- A dataset whose only variable holds an undecodable byte sequence. -/
def dsCorrupt : Dataset := ⟨[("PLATFORM_TYPE", .scalar .corruptBytes)], 0, 0⟩

/-- Claim C2: the safe accessors never raise.  For every dataset, field
name and optional index the observable outcome is a normal return of
the accessor's value, never a propagated exception; the concrete
conjuncts show the containment is not vacuous: a wrong-shaped (tuple
into 1-D) read and a corrupt byte sequence both raise inside the body
and both are converted to null, and an absent field is null. -/
theorem safe_accessor_never_raises :
    (∀ (ds : Dataset) (var_name : String) (index : Option PyIdx),
        safe_get_value_exc ds var_name index = .ok (safe_get_value ds var_name index) ∧
        safe_get_datetime_exc ds var_name index = .ok (safe_get_datetime ds var_name index)) ∧
    getValueBody dsOneDPres "PRES" (some (.tup 0 0)) = .error .typeError ∧
    safe_get_value dsOneDPres "PRES" (some (.tup 0 0)) = none ∧
    safe_get_value dsOneDPres "ABSENT" none = none ∧
    getValueBody dsCorrupt "PLATFORM_TYPE" none = .error .unicodeDecodeError ∧
    safe_get_value dsCorrupt "PLATFORM_TYPE" none = none ∧
    safe_get_datetime dsCorrupt "PLATFORM_TYPE" none = none := by
  refine ⟨fun ds var_name index => ⟨?_, ?_⟩, rfl, rfl, rfl, rfl, rfl, rfl⟩
  · unfold safe_get_value_exc safe_get_value
    cases getValueBody ds var_name index <;> rfl
  · unfold safe_get_datetime_exc safe_get_datetime
    cases getDatetimeBody ds var_name index <;> rfl

/-! ## Claim C4 -/

/-- A stored platform row used by idempotence fixtures. -/
def mdBase : FloatMetadata :=
  ⟨"W4", none, none, none, none, none, none, some 10, some 70, none, none,
   none, none, none, none, none, none, none, none⟩

/-- Claim C4: for a platform identifier already present in the store,
process_single_float with force_update false performs zero extraction
calls and zero writes, leaves the store untouched, and returns success. -/
theorem process_single_float_idempotent (p : Processor) (world : String → HostState)
    (st : Store) (wmo_id : String)
    (h : (get_float_metadata st wmo_id).isSome = true) :
    process_single_float p world st wmo_id false =
      { store := st, success := true, extractionCalls := 0, writerCalls := 0 } := by
  simp [process_single_float, h]

/-- Witness for C4 at a concrete store that already holds the platform. -/
theorem process_single_float_idempotent_witness :
    (get_float_metadata ⟨[mdBase], [], []⟩ "W4").isSome = true ∧
    process_single_float procOne worldScalarPres ⟨[mdBase], [], []⟩ "W4" false =
      { store := ⟨[mdBase], [], []⟩, success := true, extractionCalls := 0, writerCalls := 0 } :=
  ⟨by decide,
   process_single_float_idempotent procOne worldScalarPres ⟨[mdBase], [], []⟩ "W4" (by decide)⟩

/-! ## Validator helper lemmas -/

theorem vstepWmo_valid_false (md : FloatMetadata) (r : ValidationReport)
    (h : r.valid = false) : (vstepWmo md r).valid = false := by
  unfold vstepWmo
  split <;> simp [h]

theorem vstepWmo_sets (md : FloatMetadata) (r : ValidationReport)
    (h : md.wmo_id = "") : (vstepWmo md r).valid = false := by
  unfold vstepWmo
  rw [if_pos h]

theorem vstepLaunchDate_valid (md : FloatMetadata) (r : ValidationReport) :
    (vstepLaunchDate md r).valid = r.valid := by
  unfold vstepLaunchDate
  split <;> rfl

theorem vstepCoords_valid_false (md : FloatMetadata) (r : ValidationReport)
    (h : r.valid = false) : (vstepCoords md r).valid = false := by
  unfold vstepCoords
  split <;> simp [h]

theorem vstepCoords_sets (md : FloatMetadata) (r : ValidationReport)
    (h : md.launch_latitude = none ∨ md.launch_longitude = none) :
    (vstepCoords md r).valid = false := by
  unfold vstepCoords
  rw [if_pos h]

theorem vstepCycles_valid_false (cycles : List Cycle) (r : ValidationReport)
    (h : r.valid = false) : (vstepCycles cycles r).valid = false := by
  unfold vstepCycles
  split
  · rfl
  · dsimp only
    split <;> simp [h]

theorem vstepCycles_sets (cycles : List Cycle) (r : ValidationReport)
    (h : cycles = []) : (vstepCycles cycles r).valid = false := by
  unfold vstepCycles
  rw [if_pos (by simp [h])]

theorem vstepMeasurements_valid_false (measurements : List Measurement)
    (r : ValidationReport) (h : r.valid = false) :
    (vstepMeasurements measurements r).valid = false := by
  unfold vstepMeasurements
  split
  · simp [h]
  · dsimp only
    split <;> split <;> split <;> simp [h]

theorem vstepMeasurements_sets (measurements : List Measurement)
    (r : ValidationReport) (h1 : measurements ≠ [])
    (h2 : measurements.countP (fun m => m.pressure.isSome) = 0) :
    (vstepMeasurements measurements r).valid = false := by
  unfold vstepMeasurements
  have he : measurements.isEmpty = false := by
    cases measurements with
    | nil => exact absurd rfl h1
    | cons a t => rfl
  rw [if_neg (by simp [he])]
  dsimp only
  rw [if_pos h2]

/-! ## Claim C5 (corrected) -/

/-- Valid metadata used by the C5 counterexample. -/
def mdC5 : FloatMetadata := { mdBase with wmo_id := "C5" }

/-- A concrete cycle used by the C5 counterexample. -/
def cycC5 : Cycle :=
  ⟨"C5", 1, none, none, none, "Indian Ocean", none, none, none, none, none,
   none, none, none, none, none, none⟩

/-- Counterexample to C5 as stated: an input whose measurement list is
empty (hence has no pressure-bearing measurement) but whose report is
valid — the source treats an empty measurement list as a warning only. -/
theorem validate_empty_measurements_counterexample :
    ([] : List Measurement).countP (fun m => m.pressure.isSome) = 0 ∧
    (validate_float_data mdC5 [cycC5] []).valid = true := by
  exact ⟨rfl, rfl⟩

/-- Claim C5 (amended): validate_float_data returns valid=false whenever
a fatal condition holds — missing platform identifier, missing launch
coordinates, zero cycles, or a NON-EMPTY measurement list containing no
measurement with non-null pressure.  An empty measurement list only
produces the warning "No measurements found" and does not invalidate
the report. -/
theorem validate_fatal_conditions (md : FloatMetadata) (cycles : List Cycle)
    (measurements : List Measurement)
    (h : md.wmo_id = "" ∨ md.launch_latitude = none ∨ md.launch_longitude = none ∨
         cycles = [] ∨
         (measurements ≠ [] ∧ measurements.countP (fun m => m.pressure.isSome) = 0)) :
    (validate_float_data md cycles measurements).valid = false := by
  unfold validate_float_data
  rcases h with h | h | h | h | ⟨h1, h2⟩
  · exact vstepMeasurements_valid_false _ _ (vstepCycles_valid_false _ _
      (vstepCoords_valid_false _ _ (by rw [vstepLaunchDate_valid]; exact vstepWmo_sets _ _ h)))
  · exact vstepMeasurements_valid_false _ _ (vstepCycles_valid_false _ _
      (vstepCoords_sets _ _ (Or.inl h)))
  · exact vstepMeasurements_valid_false _ _ (vstepCycles_valid_false _ _
      (vstepCoords_sets _ _ (Or.inr h)))
  · exact vstepMeasurements_valid_false _ _ (vstepCycles_sets _ _ h)
  · exact vstepMeasurements_sets _ _ h1 h2

/-- Witness for the amended C5 at a concrete fatal input (zero cycles). -/
theorem validate_fatal_conditions_witness :
    (validate_float_data mdC5 [] []).valid = false :=
  validate_fatal_conditions mdC5 [] [] (Or.inr (Or.inr (Or.inr (Or.inl rfl))))

/-! ## Claim C6 -/

/-- A reachable source whose meta dataset has no launch coordinates. -/
def srcNoCoords : ArgoSource := ⟨⟨[], 0, 0⟩, ⟨[], 0, 0⟩, none, none⟩

def worldNoCoords : String → HostState := fun _ => ⟨false, ["meta", "prof"], srcNoCoords⟩

/-- Claim C6: for a platform whose metadata dataset lacks launch
latitude or longitude, metadata extraction returns null, the pipeline
run for that (not yet stored) platform fails with the store untouched
and zero persistence-writer calls, and the validator marks any metadata
missing launch coordinates valid=false. -/
theorem missing_coords_blocks_pipeline (p : Processor) (world : String → HostState)
    (st : Store) (wmo_id h : String)
    (hres : (get_argo_float_with_fallback p world 3).1 = some h)
    (hmiss : safe_get_value (world h).source.meta "LAUNCH_LATITUDE" none = none ∨
             safe_get_value (world h).source.meta "LAUNCH_LONGITUDE" none = none)
    (hnew : get_float_metadata st wmo_id = none) :
    extract_float_metadata p world wmo_id = none ∧
    process_single_float p world st wmo_id false =
      { store := st, success := false, extractionCalls := 1, writerCalls := 0 } ∧
    process_single_float p world st wmo_id true =
      { store := st, success := false, extractionCalls := 1, writerCalls := 0 } ∧
    ∀ (md : FloatMetadata) (cycles : List Cycle) (measurements : List Measurement),
      md.launch_latitude = none ∨ md.launch_longitude = none →
      (validate_float_data md cycles measurements).valid = false := by
  have hbody : metadataBody (world h).source wmo_id = .ok none := by
    unfold metadataBody
    rcases hmiss with hm | hm
    · simp [hm]
    · cases hlat : safe_get_value (world h).source.meta "LAUNCH_LATITUDE" none with
      | none => simp [hlat]
      | some la => simp [hlat, hm]
  have hmeta : extract_float_metadata p world wmo_id = none := by
    unfold extract_float_metadata
    rw [hres]
    dsimp only
    unfold extract_float_metadata_core
    rw [hbody]
  refine ⟨hmeta, ?_, ?_, ?_⟩
  · unfold process_single_float
    rw [if_neg (by simp [hnew])]
    rw [hmeta]
  · unfold process_single_float
    rw [if_neg (by simp)]
    rw [hmeta]
  · intro md cycles measurements hmd
    unfold validate_float_data
    exact vstepMeasurements_valid_false _ _ (vstepCycles_valid_false _ _
      (vstepCoords_sets _ _ hmd))

/-- Witness for C6 at a concrete unreachable-coordinates source. -/
theorem missing_coords_blocks_pipeline_witness :
    extract_float_metadata procOne worldNoCoords "W6" = none ∧
    process_single_float procOne worldNoCoords ⟨[], [], []⟩ "W6" false =
      { store := ⟨[], [], []⟩, success := false, extractionCalls := 1, writerCalls := 0 } ∧
    (validate_float_data { mdBase with launch_latitude := none } [] []).valid = false := by
  obtain ⟨a, b, _, c⟩ := missing_coords_blocks_pipeline procOne worldNoCoords ⟨[], [], []⟩
    "W6" "h" (by decide) (Or.inl (by decide)) (by decide)
  exact ⟨a, b, c { mdBase with launch_latitude := none } [] [] (Or.inl rfl)⟩

/-! ## Claim C7 -/

theorem fallbackGo_skip (world : String → HostState) :
    ∀ (pre l log : List String),
      (∀ h' ∈ pre, (world h').raises = true ∨ (world h').datasets = []) →
      fallbackGo world (pre ++ l) log =
        fallbackGo world l (log ++ pre.filter (fun h' => (world h').raises)) := by
  intro pre
  induction pre with
  | nil => intro l log _; simp
  | cons a t ih =>
    intro l log hall
    by_cases hr : (world a).raises = true
    · have hstep : fallbackGo world ((a :: t) ++ l) log = fallbackGo world (t ++ l) (log ++ [a]) := by
        simp [fallbackGo, hr]
      rw [hstep, ih l (log ++ [a]) (fun x hx => hall x (List.mem_cons_of_mem a hx))]
      simp [List.filter_cons, hr]
    · have hr' : (world a).raises = false := by
        revert hr; cases (world a).raises <;> simp
      have hd : (world a).datasets = [] := by
        rcases hall a (List.mem_cons_self a t) with h1 | h1
        · exact absurd h1 hr
        · exact h1
      have hstep : fallbackGo world ((a :: t) ++ l) log = fallbackGo world (t ++ l) log := by
        simp [fallbackGo, hr', hd]
      rw [hstep, ih l log (fun x hx => hall x (List.mem_cons_of_mem a hx))]
      simp [List.filter_cons, hr']

theorem fallbackGo_none (world : String → HostState) (l log : List String)
    (hall : ∀ h' ∈ l, (world h').raises = true ∨ (world h').datasets = []) :
    (fallbackGo world l log).1 = none := by
  have := fallbackGo_skip world l [] log hall
  rw [List.append_nil] at this
  rw [this]
  rfl

theorem fallbackGo_success (world : String → HostState) (pre : List String)
    (h : String) (rest log : List String)
    (hpre : ∀ h' ∈ pre, (world h').raises = true ∨ (world h').datasets = [])
    (hr : (world h).raises = false) (hd : (world h).datasets ≠ []) :
    fallbackGo world (pre ++ h :: rest) log =
      (some h, log ++ pre.filter (fun h' => (world h').raises)) := by
  rw [fallbackGo_skip world pre (h :: rest) log hpre]
  cases hds : (world h).datasets with
  | nil => exact absurd hds hd
  | cons d ds => simp [fallbackGo, hr, hds]

/-- Claim C7: source resolution tries hosts in fixed priority order, logs
each raising attempt and continues past it, and returns the first host
whose dataset catalogue listing is non-empty; when every allowed attempt
fails it returns the unreachable-source value None. -/
theorem source_resolution_first_success (p : Processor) (world : String → HostState)
    (max_retries : Nat) (pre : List String) (h : String) (rest : List String)
    (hsplit : (p.gdac_host :: p.fallback_hosts).take (max_retries + 1) = pre ++ h :: rest)
    (hpre : ∀ h' ∈ pre, (world h').raises = true ∨ (world h').datasets = [])
    (hh : (world h).raises = false)
    (hd : (world h).datasets ≠ []) :
    get_argo_float_with_fallback p world max_retries =
      (some h, pre.filter (fun h' => (world h').raises)) ∧
    ∀ world2 : String → HostState,
      (∀ h' ∈ (p.gdac_host :: p.fallback_hosts).take (max_retries + 1),
          (world2 h').raises = true ∨ (world2 h').datasets = []) →
      (get_argo_float_with_fallback p world2 max_retries).1 = none := by
  constructor
  · unfold get_argo_float_with_fallback
    rw [hsplit]
    have := fallbackGo_success world pre h rest [] hpre hh hd
    simpa using this
  · intro world2 hall
    unfold get_argo_float_with_fallback
    exact fallbackGo_none world2 _ [] hall

/-- The 3-mirror scenario: the first two mirrors raise, the third serves
a non-empty catalogue. -/
def worldMirrors : String → HostState := fun s =>
  if s = "m3" then ⟨false, ["prof"], srcScalarPres⟩ else ⟨true, [], srcScalarPres⟩

def procMirrors : Processor := ⟨"m1", ["m2", "m3"]⟩

/-- A world in which every connection attempt raises. -/
def worldAllFail : String → HostState := fun _ => ⟨true, [], srcScalarPres⟩

/-- Witness for C7: with 3 mirrors where the first 2 raise and the 3rd
succeeds, resolution returns the 3rd mirror and logs exactly the 2
failures; and when all mirrors fail resolution returns None. -/
theorem source_resolution_first_success_witness :
    get_argo_float_with_fallback procMirrors worldMirrors 3 = (some "m3", ["m1", "m2"]) ∧
    (get_argo_float_with_fallback procMirrors worldAllFail 3).1 = none := by
  constructor
  · have h1 := (source_resolution_first_success procMirrors worldMirrors 3 ["m1", "m2"] "m3" []
      (by decide) (by decide) (by decide) (by decide)).1
    rw [h1]
    decide
  · exact (source_resolution_first_success procMirrors worldMirrors 3 ["m1", "m2"] "m3" []
      (by decide) (by decide) (by decide) (by decide)).2 worldAllFail (by decide)

/-! ## Claim C8 -/

/-- Claim C8: when a platform upsert hits a key conflict, every existing
row keeps its identity and immutable columns (identifier, launch
date/latitude/longitude, project, PI, serial number, deployment fields,
start date, battery, firmware, DAC, network, owner, institution)
unchanged; for the conflicting row exactly the mutable columns
(platform_type, platform_maker, end_mission_date — plus updated_at,
outside the model) take the new values, and non-conflicting rows are
untouched. -/
theorem insert_float_metadata_frame (st : Store) (md : FloatMetadata)
    (hconf : st.floats.any (fun r => r.wmo_id == md.wmo_id) = true) :
    ∀ r ∈ st.floats, ∃ r' ∈ (insert_float_metadata st md).floats,
      r'.wmo_id = r.wmo_id ∧
      r'.launch_date = r.launch_date ∧
      r'.launch_latitude = r.launch_latitude ∧
      r'.launch_longitude = r.launch_longitude ∧
      r'.project_name = r.project_name ∧
      r'.pi_name = r.pi_name ∧
      r'.float_serial_no = r.float_serial_no ∧
      r'.deployment_platform = r.deployment_platform ∧
      r'.deployment_cruise_id = r.deployment_cruise_id ∧
      r'.start_date = r.start_date ∧
      r'.battery_type = r.battery_type ∧
      r'.firmware_version = r.firmware_version ∧
      r'.dac_name = r.dac_name ∧
      r'.network_type = r.network_type ∧
      r'.float_owner = r.float_owner ∧
      r'.operating_institution = r.operating_institution ∧
      (r.wmo_id = md.wmo_id →
        r'.platform_type = md.platform_type ∧
        r'.platform_maker = md.platform_maker ∧
        r'.end_mission_date = md.end_mission_date) ∧
      (r.wmo_id ≠ md.wmo_id → r' = r) := by
  intro r hr
  unfold insert_float_metadata
  rw [if_pos hconf]
  refine ⟨_, List.mem_map_of_mem _ hr, ?_⟩
  cases hbeq : r.wmo_id == md.wmo_id with
  | true =>
    have hid : r.wmo_id = md.wmo_id := by
      exact beq_iff_eq.mp hbeq
    exact ⟨rfl, rfl, rfl, rfl, rfl, rfl, rfl, rfl, rfl, rfl, rfl, rfl, rfl, rfl, rfl, rfl,
      fun _ => ⟨rfl, rfl, rfl⟩, fun hne => absurd hid hne⟩
  | false =>
    have hid : r.wmo_id ≠ md.wmo_id := by
      intro he
      rw [he] at hbeq
      simp at hbeq
    exact ⟨rfl, rfl, rfl, rfl, rfl, rfl, rfl, rfl, rfl, rfl, rfl, rfl, rfl, rfl, rfl, rfl,
      fun he => absurd he hid, fun _ => rfl⟩

/-- The stored platform row used by the C8 witness. -/
def rowC8 : FloatMetadata :=
  { mdBase with wmo_id := "42", platform_type := some (.str "OLD"),
                launch_date := some 11, project_name := some (.str "PROJ") }

/-- The conflicting upsert payload used by the C8 witness. -/
def mdC8 : FloatMetadata :=
  { mdBase with wmo_id := "42", platform_type := some (.str "NEW"),
                platform_maker := some (.str "MAKER"), end_mission_date := some 99,
                launch_latitude := some 33, project_name := some (.str "OTHER") }

def stC8 : Store := ⟨[rowC8], [], []⟩

/-- Witness for C8 at a concrete conflicting upsert. -/
theorem insert_float_metadata_frame_witness :
    ∃ r' ∈ (insert_float_metadata stC8 mdC8).floats,
      r'.wmo_id = rowC8.wmo_id ∧
      r'.launch_date = rowC8.launch_date ∧
      r'.launch_latitude = rowC8.launch_latitude ∧
      r'.launch_longitude = rowC8.launch_longitude ∧
      r'.project_name = rowC8.project_name ∧
      r'.pi_name = rowC8.pi_name ∧
      r'.float_serial_no = rowC8.float_serial_no ∧
      r'.deployment_platform = rowC8.deployment_platform ∧
      r'.deployment_cruise_id = rowC8.deployment_cruise_id ∧
      r'.start_date = rowC8.start_date ∧
      r'.battery_type = rowC8.battery_type ∧
      r'.firmware_version = rowC8.firmware_version ∧
      r'.dac_name = rowC8.dac_name ∧
      r'.network_type = rowC8.network_type ∧
      r'.float_owner = rowC8.float_owner ∧
      r'.operating_institution = rowC8.operating_institution ∧
      (rowC8.wmo_id = mdC8.wmo_id →
        r'.platform_type = mdC8.platform_type ∧
        r'.platform_maker = mdC8.platform_maker ∧
        r'.end_mission_date = mdC8.end_mission_date) ∧
      (rowC8.wmo_id ≠ mdC8.wmo_id → r' = rowC8) :=
  insert_float_metadata_frame stC8 mdC8 (by decide) rowC8 (by decide)

/-! ## Claim C10 -/

theorem ecd_foldl_fst_sub (ds : Dataset) (wmo : String) :
    ∀ (l : List Nat) (acc : List Cycle × List Measurement),
      acc.1 ⊆ (l.foldl (ecdStep ds wmo) acc).1 := by
  intro l
  induction l with
  | nil => intro acc; simp
  | cons a t ih =>
    intro acc
    rw [List.foldl_cons]
    refine List.Subset.trans ?_ (ih (ecdStep ds wmo acc a))
    unfold ecdStep
    split
    · exact List.subset_append_left _ _
    · exact List.Subset.refl _

theorem ecd_mem_of_ok (ds : Dataset) (wmo : String) (i : Nat) (c : Cycle)
    (ms : List Measurement) (hok : processProfile ds wmo i = .ok (c, ms)) :
    ∀ (l : List Nat) (acc : List Cycle × List Measurement),
      i ∈ l → c ∈ (l.foldl (ecdStep ds wmo) acc).1 := by
  intro l
  induction l with
  | nil => intro acc hmem; simp at hmem
  | cons a t ih =>
    intro acc hmem
    rw [List.foldl_cons]
    rcases List.mem_cons.1 hmem with heq | hmem'
    · have hstep : (ecdStep ds wmo acc a).1 = acc.1 ++ [c] := by
        rw [← heq]
        unfold ecdStep
        rw [hok]
      apply ecd_foldl_fst_sub ds wmo t (ecdStep ds wmo acc a)
      rw [hstep]
      simp
    · exact ih (ecdStep ds wmo acc a) hmem'

/-- Claim C10: when CYCLE_NUMBER at profile index i decodes to null,
the profile is still processed (not skipped) and its cycle record is
emitted with cycle_number 0; two cycles of one platform sharing the
(wmo_id, cycle_number) key collapse to a single row on upsert, with the
later write's updatable columns overwriting the earlier one's. -/
theorem null_cycle_number_defaults_zero (ds : Dataset) (wmo_id : String) (i : Nat)
    (hi : i < ds.nProf)
    (h : safe_get_value ds "CYCLE_NUMBER" (some (.int i)) = none) :
    processProfile ds wmo_id i =
      .ok (mkCycle ds wmo_id 0 i, extract_measurements_for_profile ds wmo_id 0 i) ∧
    (mkCycle ds wmo_id 0 i).cycle_number = 0 ∧
    mkCycle ds wmo_id 0 i ∈ (extract_cycle_data_core ds wmo_id).1 ∧
    ∀ (st : Store) (c1 c2 : Cycle), st.cycles = [] → c1.wmo_id = c2.wmo_id →
      c1.cycle_number = c2.cycle_number →
      ∃ r, (insert_cycle_data (insert_cycle_data st c1) c2).cycles = [r] ∧
        r.wmo_id = c1.wmo_id ∧ r.cycle_number = c1.cycle_number ∧
        r.profile_date = c2.profile_date ∧ r.profile_latitude = c2.profile_latitude ∧
        r.profile_longitude = c2.profile_longitude ∧ r.data_mode = c2.data_mode := by
  have hok : processProfile ds wmo_id i =
      .ok (mkCycle ds wmo_id 0 i, extract_measurements_for_profile ds wmo_id 0 i) := by
    unfold processProfile
    rw [h]
    have h0 : ratTrunc 0 = 0 := by decide
    simp [pyOr0, pyInt, h0]
  refine ⟨hok, rfl, ?_, ?_⟩
  · unfold extract_cycle_data_core
    exact ecd_mem_of_ok ds wmo_id i _ _ hok (List.range ds.nProf) ([], [])
      (List.mem_range.2 hi)
  · intro st c1 c2 hempty h1 h2
    have hst1 : (insert_cycle_data st c1).cycles = [c1] := by
      unfold insert_cycle_data
      rw [hempty]
      simp
    set st1 := insert_cycle_data st c1 with hdef
    refine ⟨{ c1 with
                profile_date := c2.profile_date
                profile_latitude := c2.profile_latitude
                profile_longitude := c2.profile_longitude
                data_mode := c2.data_mode },
            ?_, rfl, rfl, rfl, rfl, rfl, rfl⟩
    unfold insert_cycle_data
    rw [hst1]
    simp [h1, h2]

/-- The earlier of two cycles sharing the (wmo_id, cycle_number) key. -/
def cycBase : Cycle :=
  ⟨"W", 0, none, none, none, "Indian Ocean", none, none, none, none, none,
   none, none, none, none, none, none⟩

/-- The later of the two conflicting cycles. -/
def cycLater : Cycle :=
  { cycBase with profile_date := some 5, profile_latitude := some (.num 3),
                 data_mode := some (.str "A") }

/-- Witness for C10 at a concrete dataset with no CYCLE_NUMBER variable
and a concrete pair of key-sharing cycle upserts. -/
theorem null_cycle_number_defaults_zero_witness :
    processProfile dsProfScalarPres "W" 0 =
      .ok (mkCycle dsProfScalarPres "W" 0 0,
           extract_measurements_for_profile dsProfScalarPres "W" 0 0) ∧
    mkCycle dsProfScalarPres "W" 0 0 ∈ (extract_cycle_data_core dsProfScalarPres "W").1 ∧
    ∃ r, (insert_cycle_data (insert_cycle_data ⟨[], [], []⟩ cycBase) cycLater).cycles = [r] ∧
      r.wmo_id = cycBase.wmo_id ∧ r.cycle_number = cycBase.cycle_number ∧
      r.profile_date = cycLater.profile_date ∧ r.profile_latitude = cycLater.profile_latitude ∧
      r.profile_longitude = cycLater.profile_longitude ∧ r.data_mode = cycLater.data_mode := by
  obtain ⟨a, _, c, d⟩ := null_cycle_number_defaults_zero dsProfScalarPres "W" 0
    (by decide) (by decide)
  exact ⟨a, c, d ⟨[], [], []⟩ cycBase cycLater rfl rfl rfl⟩

/-! ## Claim C3 -/

/-- Meta dataset of the end-to-end scenario: launch position present. -/
def dsMeta3 : Dataset :=
  ⟨[("LAUNCH_LATITUDE", .scalar (.num 10)), ("LAUNCH_LONGITUDE", .scalar (.num 70))], 0, 0⟩

/-- Prof dataset of the end-to-end scenario: 2 cycles over a 6-level
grid; cycle 1 has 5 levels with valid pressure and 1 null-pressure
(fill) level, cycle 2 has 3 valid-pressure levels (rest fill). -/
def dsProf3 : Dataset :=
  ⟨[("CYCLE_NUMBER", .oneD [.num 1, .num 2]),
    ("PRES", .twoD [[.num 5, .num 10, .num 15, .num 20, .num 25, .nan],
                    [.num 5, .num 10, .num 15, .nan, .nan, .nan]])], 2, 6⟩

def src3 : ArgoSource := ⟨dsMeta3, dsProf3, some "incois", some "core"⟩

def world3 : String → HostState := fun _ => ⟨false, ["meta", "prof"], src3⟩

/-- Claim C3 evaluated on the code (code_bug): the end-to-end scenario
of the claim yields 2 cycle rows but ZERO persisted measurement rows
and a report whose stats.measurements_count is 0, not 8, because the
bounds check len(value) compared against a tuple index raises TypeError
inside safe_get_value, which the catch-all converts to null, so every
per-level pressure decodes to null and every level is dropped. -/
theorem end_to_end_measurements_dropped :
    (extract_cycle_data procOne world3 "1234567").1.length = 2 ∧
    (extract_cycle_data procOne world3 "1234567").2 = [] ∧
    ((extract_float_metadata procOne world3 "1234567").map (fun md =>
        (validate_float_data md (extract_cycle_data procOne world3 "1234567").1
          (extract_cycle_data procOne world3 "1234567").2).stats.measurements_count)) =
      some 0 ∧
    (process_single_float procOne world3 ⟨[], [], []⟩ "1234567" false).store.measurements = [] ∧
    (process_single_float procOne world3 ⟨[], [], []⟩ "1234567" false).store.cycles.length = 2 ∧
    (process_single_float procOne world3 ⟨[], [], []⟩ "1234567" false).success = true ∧
    safe_get_value dsProf3 "PRES" (some (.tup 0 0)) = none ∧
    getValueBody dsProf3 "PRES" (some (.tup 0 0)) = .error .typeError := by
  refine ⟨by decide, by decide, by decide, by decide, by decide, by decide, by decide, rfl⟩

end FloatBot
